import Mathlib

/-!
Verification of the HTTP access-guard and request-validation layer of the
mem0 REST server (`src/server/main.py`).

The server is a thin façade: each route handler first calls
`verify_api_key`, then validates identifier presence, then invokes exactly
one operation on the process-wide `MEMORY_INSTANCE` engine inside a
`try/except` that converts engine exceptions into `HTTPException(500, str(e))`
(except for `set_config`, which has no `try/except`).

We embed the handlers as pure Lean functions.  Python `Optional[str]` is
`Option String`; Python truthiness of an optional string (`None` and `""`
are falsy) is `pyTruthyStr`.  Dictionary values of the dumped pydantic
models are modelled by `PVal`, with `PVal.pnone` standing for Python
`None`, so that the `{k: v for k, v in ... if v is not None}` stripping
comprehensions can be embedded literally as list filters.  Free-form
`Dict[str, Any]` payloads (metadata, filters, config) are carried opaquely
as association lists of strings, since no in-scope code inspects them.
A handler's decision is a `HandlerAction`: either raising an
`HTTPException` (status, detail) or performing one engine call.
-/

namespace Mem0Server

/-- A chat message, from the pydantic model `Message` (`role`, `content`). -/
structure Message where
  role : String
  content : String
  deriving DecidableEq

/-- Python truthiness of an `Optional[str]`: `None` and `""` are falsy. -/
def pyTruthyStr : Option String → Bool
  | none => false
  | some s => s != ""

/-- Values of a dumped pydantic model, as passed to the engine.
`pnone` is Python `None`; `pdict` models an opaque `Dict[str, Any]`;
`pmsgs` models a dumped message list (a list of `{role, content}` dicts). -/
inductive PVal where
  | pnone : PVal
  | pstr : String → PVal
  | pdict : List (String × String) → PVal
  | pmsgs : List (List (String × String)) → PVal
  deriving DecidableEq

/-- Dump an `Option String` field the way `model_dump` does (`None` ↦ `pnone`). -/
def optStrVal : Option String → PVal
  | none => PVal.pnone
  | some s => PVal.pstr s

/-- Dump an `Optional[Dict[str, Any]]` field (`None` ↦ `pnone`). -/
def optDictVal : Option (List (String × String)) → PVal
  | none => PVal.pnone
  | some d => PVal.pdict d

/-- `safe_dump` of a `Message`: the dict `{"role": ..., "content": ...}`. -/
def dumpMessage (m : Message) : List (String × String) :=
  [("role", m.role), ("content", m.content)]

/-- The pydantic model `MemoryCreate`. -/
structure MemoryCreate where
  messages : List Message
  user_id : Option String
  agent_id : Option String
  run_id : Option String
  metadata : Option (List (String × String))
  deriving DecidableEq

/-- The pydantic model `MemoryFilter`. -/
structure MemoryFilter where
  user_id : Option String
  agent_id : Option String
  run_id : Option String
  filters : Option (List (String × String))
  deriving DecidableEq

/-- The pydantic model `SearchRequest` (`query` is a required `str`,
which pydantic accepts even when empty). -/
structure SearchRequest where
  query : String
  user_id : Option String
  run_id : Option String
  agent_id : Option String
  filters : Option (List (String × String))
  deriving DecidableEq

/-- The result of `verify_api_key`: either the handler proceeds
(`allow`, carrying the function's return value: `None` on the trusted-IP
path, the credential string otherwise) or an `HTTPException` is raised
(`reject status detail`). -/
inductive AuthResult where
  | allow : Option String → AuthResult
  | reject : Nat → String → AuthResult
  deriving DecidableEq

/-- The hard-coded dashboard container IPs allowed to skip the API key. -/
def dashboardIPs : List String := ["10.0.1.151", "172.23.0.5"]

/-- Python truthiness of the `MEM0_API_KEY` environment value: the check
`if not MEM0_API_KEY` fires when the variable is unset (`None`) or empty. -/
def mem0KeyFalsy : Option String → Bool
  | none => true
  | some s => s == ""

/-- `verify_api_key` from `src/server/main.py`:
trusted-IP allow-list first, then the configured-secret check, then the
credential comparison.  `credentials` is the optional
`HTTPAuthorizationCredentials` (modelled by its token string). -/
def verify_api_key (mem0_api_key : Option String) (client_ip : String)
    (credentials : Option String) : AuthResult :=
  if client_ip ∈ dashboardIPs then
    AuthResult.allow none
  else if mem0KeyFalsy mem0_api_key then
    AuthResult.reject 500 "API key not configured"
  else if credentials = none ∨ credentials ≠ mem0_api_key then
    AuthResult.reject 403 "Invalid API key"
  else
    AuthResult.allow credentials

/-- One call against the memory engine, recording the operation and the
keyword arguments actually forwarded. -/
inductive EngineCall where
  | add : List (List (String × String)) → List (String × PVal) → EngineCall
  | get_all : List (String × PVal) → EngineCall
  | search : String → List (String × PVal) → EngineCall
  | delete_all : List (String × PVal) → EngineCall
  deriving DecidableEq

/-- What a route handler does after authentication: raise an
`HTTPException(status, detail)` or invoke one engine operation. -/
inductive HandlerAction where
  | httpError : Nat → String → HandlerAction
  | engineCall : EngineCall → HandlerAction
  deriving DecidableEq

/-- Whether a handler action reaches the memory engine. -/
def invokesEngine : HandlerAction → Bool
  | HandlerAction.httpError _ _ => false
  | HandlerAction.engineCall _ => true

/-- `safe_dump(memory_create)`: the field dictionary in declaration order. -/
def safe_dump_create (m : MemoryCreate) : List (String × PVal) :=
  [("messages", PVal.pmsgs (m.messages.map dumpMessage)),
   ("user_id", optStrVal m.user_id),
   ("agent_id", optStrVal m.agent_id),
   ("run_id", optStrVal m.run_id),
   ("metadata", optDictVal m.metadata)]

/-- `params = {k: v for k, v in data.items() if v is not None and k != "messages"}`
in `add_memory`. -/
def add_params (m : MemoryCreate) : List (String × PVal) :=
  (safe_dump_create m).filter (fun kv => kv.2 != PVal.pnone && kv.1 != "messages")

/-- The `add_memory` handler (post-authentication): identifier-presence
check, then one `MEMORY_INSTANCE.add(messages=..., **params)` call. -/
def add_memory (memory_create : MemoryCreate) : HandlerAction :=
  if !(pyTruthyStr memory_create.user_id || pyTruthyStr memory_create.agent_id
        || pyTruthyStr memory_create.run_id) then
    HandlerAction.httpError 400
      "At least one identifier (user_id, agent_id, run_id) is required."
  else
    HandlerAction.engineCall
      (EngineCall.add (memory_create.messages.map dumpMessage) (add_params memory_create))

/-- `{"user_id": u, "run_id": r, "agent_id": a}` filtered to non-`None`
values, as built in `filter_memories_post`, `get_all_memories` and
`delete_all_memories`. -/
def idParams (user_id run_id agent_id : Option String) : List (String × PVal) :=
  ([("user_id", optStrVal user_id), ("run_id", optStrVal run_id),
    ("agent_id", optStrVal agent_id)]).filter (fun kv => kv.2 != PVal.pnone)

/-- The `filter_memories_post` handler (post-authentication): an absent
body leaves all three identifiers `None`; then the identifier-presence
check, then one `MEMORY_INSTANCE.get_all(**params)` call. -/
def filter_memories_post (filter_req : Option MemoryFilter) : HandlerAction :=
  let user_id := match filter_req with
    | some f => f.user_id
    | none => none
  let agent_id := match filter_req with
    | some f => f.agent_id
    | none => none
  let run_id := match filter_req with
    | some f => f.run_id
    | none => none
  if !(pyTruthyStr user_id || pyTruthyStr agent_id || pyTruthyStr run_id) then
    HandlerAction.httpError 400 "At least one identifier is required."
  else
    HandlerAction.engineCall (EngineCall.get_all (idParams user_id run_id agent_id))

/-- The `get_all_memories` handler (post-authentication). -/
def get_all_memories (user_id run_id agent_id : Option String) : HandlerAction :=
  if !(pyTruthyStr user_id || pyTruthyStr run_id || pyTruthyStr agent_id) then
    HandlerAction.httpError 400 "At least one identifier is required."
  else
    HandlerAction.engineCall (EngineCall.get_all (idParams user_id run_id agent_id))

/-- The `delete_all_memories` handler (post-authentication). -/
def delete_all_memories (user_id run_id agent_id : Option String) : HandlerAction :=
  if !(pyTruthyStr user_id || pyTruthyStr run_id || pyTruthyStr agent_id) then
    HandlerAction.httpError 400 "At least one identifier is required."
  else
    HandlerAction.engineCall (EngineCall.delete_all (idParams user_id run_id agent_id))

/-- `safe_dump(search_req)`: the field dictionary in declaration order. -/
def safe_dump_search (s : SearchRequest) : List (String × PVal) :=
  [("query", PVal.pstr s.query),
   ("user_id", optStrVal s.user_id),
   ("run_id", optStrVal s.run_id),
   ("agent_id", optStrVal s.agent_id),
   ("filters", optDictVal s.filters)]

/-- `params = {k: v for k, v in safe_dump(search_req).items() if v is not None and k != "query"}`
in `search_memories`. -/
def search_params (s : SearchRequest) : List (String × PVal) :=
  (safe_dump_search s).filter (fun kv => kv.2 != PVal.pnone && kv.1 != "query")

/-- The `search_memories` handler (post-authentication): no validation at
all, one `MEMORY_INSTANCE.search(query=..., **params)` call. -/
def search_memories (search_req : SearchRequest) : HandlerAction :=
  HandlerAction.engineCall (EngineCall.search search_req.query (search_params search_req))

/-- The HTTP-level outcome of running a handler: a successful body, a
raised `HTTPException(status, detail)`, or an exception that propagates
out of the handler unhandled. -/
inductive Outcome (α : Type) where
  | ok : α → Outcome α
  | httpExc : Nat → String → Outcome α
  | uncaught : String → Outcome α
  deriving DecidableEq

/-- The `try/except` wrapper shared by every memory-operation handler:
run the single engine call; an engine exception becomes
`HTTPException(500, str(e))`, with no retry. -/
def runHandler {α : Type} (engine : EngineCall → Except String α) :
    HandlerAction → Outcome α
  | HandlerAction.httpError n d => Outcome.httpExc n d
  | HandlerAction.engineCall c =>
    match engine c with
    | Except.ok r => Outcome.ok r
    | Except.error e => Outcome.httpExc 500 e

/-- An opaque configuration mapping (`Dict[str, Any]`). -/
abbrev Config := List (String × String)

/-- The `set_config` handler (post-authentication), with the process-wide
`MEMORY_INSTANCE` global passed as explicit state of type `E`.
`MEMORY_INSTANCE = Memory.from_config(config)` evaluates the right-hand
side first: if `Memory.from_config` raises, the assignment never happens
and — `set_config` having no `try/except` — the exception propagates out
of the handler unhandled. -/
def set_config {E : Type} (from_config : Config → Except String E)
    (mem_instance : E) (config : Config) : E × Outcome String :=
  match from_config config with
  | Except.error e => (mem_instance, Outcome.uncaught e)
  | Except.ok eng => (eng, Outcome.ok "Configuration set successfully")

/-- Expected shape of one stripped optional string field: absent fields
contribute nothing, present fields contribute their unchanged value. -/
def optEntry (k : String) : Option String → List (String × PVal)
  | none => []
  | some s => [(k, PVal.pstr s)]

/-- Expected shape of one stripped optional mapping field. -/
def optDictEntry (k : String) : Option (List (String × String)) → List (String × PVal)
  | none => []
  | some d => [(k, PVal.pdict d)]

/-!  Theorems about the claims. -/

/-- Claim C1: for every request whose caller IP is in the trusted
dashboard allow-list, `verify_api_key` returns (allows) regardless of the
configured secret and of the presented credential, including an absent
credential: the allow-list check is evaluated first and short-circuits. -/
theorem verify_api_key_trusted_allows (mem0_api_key : Option String)
    (client_ip : String) (credentials : Option String)
    (h : client_ip ∈ dashboardIPs) :
    verify_api_key mem0_api_key client_ip credentials = AuthResult.allow none := by
  simp [verify_api_key, h]

/-- Claim C1 witness: the trusted IP `10.0.1.151` with no secret configured
and no credential presented is allowed. -/
theorem verify_api_key_trusted_allows_witness :
    "10.0.1.151" ∈ dashboardIPs ∧
      verify_api_key none "10.0.1.151" none = AuthResult.allow none :=
  ⟨by decide, verify_api_key_trusted_allows none "10.0.1.151" none (by decide)⟩

/-- Claim C2: for every request from a non-trusted IP when no server-side
secret is configured, `verify_api_key` raises the 500
"API key not configured" error — never the 403 "Invalid API key" error —
whatever credential is presented. -/
theorem verify_api_key_no_secret (client_ip : String) (credentials : Option String)
    (h : client_ip ∉ dashboardIPs) :
    verify_api_key none client_ip credentials
        = AuthResult.reject 500 "API key not configured" ∧
      verify_api_key none client_ip credentials
        ≠ AuthResult.reject 403 "Invalid API key" := by
  constructor
  · simp [verify_api_key, h, mem0KeyFalsy]
  · simp [verify_api_key, h, mem0KeyFalsy]

/-- Claim C2 witness: a non-trusted IP presenting a credential with no
secret configured gets the 500 misconfiguration error, not 403. -/
theorem verify_api_key_no_secret_witness :
    "9.9.9.9" ∉ dashboardIPs ∧
      (verify_api_key none "9.9.9.9" (some "abc")
          = AuthResult.reject 500 "API key not configured" ∧
        verify_api_key none "9.9.9.9" (some "abc")
          ≠ AuthResult.reject 403 "Invalid API key") :=
  ⟨by decide, verify_api_key_no_secret "9.9.9.9" (some "abc") (by decide)⟩

/-- Claim C3: for every request from a non-trusted IP when a (non-empty)
secret is configured, `verify_api_key` allows iff the presented credential
is present and exactly equals the secret; otherwise it raises the 403
"Invalid API key" error. -/
theorem verify_api_key_secret_iff (s client_ip : String) (credentials : Option String)
    (hip : client_ip ∉ dashboardIPs) (hs : s ≠ "") :
    (verify_api_key (some s) client_ip credentials = AuthResult.allow credentials
        ↔ credentials = some s) ∧
      (credentials ≠ some s →
        verify_api_key (some s) client_ip credentials
          = AuthResult.reject 403 "Invalid API key") := by
  obtain _ | c := credentials
  · simp [verify_api_key, hip, mem0KeyFalsy, hs]
  · by_cases hcs : c = s
    · subst hcs
      simp [verify_api_key, hip, mem0KeyFalsy, hs]
    · simp [verify_api_key, hip, mem0KeyFalsy, hs, hcs]

/-- Claim C3 witness: with secret `"abc"` and non-trusted IP `"9.9.9.9"`,
credential `"abc"` is allowed and credential `"xyz"` is rejected with 403. -/
theorem verify_api_key_secret_iff_witness :
    "9.9.9.9" ∉ dashboardIPs ∧ "abc" ≠ "" ∧
      (verify_api_key (some "abc") "9.9.9.9" (some "abc")
          = AuthResult.allow (some "abc") ↔ (some "abc" : Option String) = some "abc") ∧
      ((some "xyz" : Option String) ≠ some "abc" →
        verify_api_key (some "abc") "9.9.9.9" (some "xyz")
          = AuthResult.reject 403 "Invalid API key") :=
  ⟨by decide, by decide,
    (verify_api_key_secret_iff "abc" "9.9.9.9" (some "abc") (by decide) (by decide)).1,
    (verify_api_key_secret_iff "abc" "9.9.9.9" (some "xyz") (by decide) (by decide)).2⟩

/-- Claim C4: for create, POST-filter, bulk-get and bulk-delete requests in
which `user_id`, `agent_id` and `run_id` are all absent or empty, the
handler raises the 400 required-identifier error and never reaches the
memory engine (`invokesEngine` is false). -/
theorem required_identifier_validation (m : MemoryCreate) (fr : Option MemoryFilter)
    (u r a : Option String)
    (hm : pyTruthyStr m.user_id = false ∧ pyTruthyStr m.agent_id = false ∧
      pyTruthyStr m.run_id = false)
    (hf : ∀ f, fr = some f → pyTruthyStr f.user_id = false ∧
      pyTruthyStr f.agent_id = false ∧ pyTruthyStr f.run_id = false)
    (hq : pyTruthyStr u = false ∧ pyTruthyStr r = false ∧ pyTruthyStr a = false) :
    (add_memory m = HandlerAction.httpError 400
        "At least one identifier (user_id, agent_id, run_id) is required." ∧
      invokesEngine (add_memory m) = false) ∧
      (filter_memories_post fr
          = HandlerAction.httpError 400 "At least one identifier is required." ∧
        invokesEngine (filter_memories_post fr) = false) ∧
      (get_all_memories u r a
          = HandlerAction.httpError 400 "At least one identifier is required." ∧
        invokesEngine (get_all_memories u r a) = false) ∧
      (delete_all_memories u r a
          = HandlerAction.httpError 400 "At least one identifier is required." ∧
        invokesEngine (delete_all_memories u r a) = false) := by
  obtain ⟨hm1, hm2, hm3⟩ := hm
  obtain ⟨hq1, hq2, hq3⟩ := hq
  refine ⟨⟨?_, ?_⟩, ⟨?_, ?_⟩, ⟨?_, ?_⟩, ⟨?_, ?_⟩⟩
  · simp [add_memory, hm1, hm2, hm3]
  · simp [add_memory, hm1, hm2, hm3, invokesEngine]
  · obtain _ | f := fr
    · simp [filter_memories_post, pyTruthyStr]
    · obtain ⟨hf1, hf2, hf3⟩ := hf f rfl
      simp [filter_memories_post, hf1, hf2, hf3]
  · obtain _ | f := fr
    · simp [filter_memories_post, pyTruthyStr, invokesEngine]
    · obtain ⟨hf1, hf2, hf3⟩ := hf f rfl
      simp [filter_memories_post, hf1, hf2, hf3, invokesEngine]
  · simp [get_all_memories, hq1, hq2, hq3]
  · simp [get_all_memories, hq1, hq2, hq3, invokesEngine]
  · simp [delete_all_memories, hq1, hq2, hq3]
  · simp [delete_all_memories, hq1, hq2, hq3, invokesEngine]

/-- Claim C4 witness: a create body with messages but all identifiers
absent, an empty filter body, and absent query identifiers all yield the
400 required-identifier error with no engine call. -/
theorem required_identifier_validation_witness :
    (add_memory ⟨[⟨"user", "hi"⟩], none, none, none, none⟩
        = HandlerAction.httpError 400
          "At least one identifier (user_id, agent_id, run_id) is required." ∧
      invokesEngine (add_memory ⟨[⟨"user", "hi"⟩], none, none, none, none⟩) = false) ∧
      (filter_memories_post none
          = HandlerAction.httpError 400 "At least one identifier is required." ∧
        invokesEngine (filter_memories_post none) = false) ∧
      (get_all_memories none none none
          = HandlerAction.httpError 400 "At least one identifier is required." ∧
        invokesEngine (get_all_memories none none none) = false) ∧
      (delete_all_memories none none none
          = HandlerAction.httpError 400 "At least one identifier is required." ∧
        invokesEngine (delete_all_memories none none none) = false) :=
  required_identifier_validation ⟨[⟨"user", "hi"⟩], none, none, none, none⟩ none
    none none none ⟨rfl, rfl, rfl⟩ (fun _ h => Option.noConfusion h) ⟨rfl, rfl, rfl⟩

/-- Claim C5: a POST filter request with no body at all is handled exactly
like an explicit body with all identifiers absent: the same 400
required-identifier error, with no crash (the handler is a total function
here and performs no engine call). -/
theorem filter_post_absent_body :
    filter_memories_post none
        = HandlerAction.httpError 400 "At least one identifier is required." ∧
      filter_memories_post none = filter_memories_post (some ⟨none, none, none, none⟩) ∧
      invokesEngine (filter_memories_post none) = false := by
  refine ⟨rfl, rfl, rfl⟩

/-- Claim C6 counterexample: a search request with an empty query string is
not rejected with a 400 validation error — `search_memories` forwards it
directly to the engine's search operation. -/
theorem search_empty_query_counterexample :
    search_memories ⟨"", none, none, none, none⟩
        = HandlerAction.engineCall (EngineCall.search "" []) ∧
      invokesEngine (search_memories ⟨"", none, none, none, none⟩) = true := by
  refine ⟨rfl, rfl⟩

/-- Claim C6 (amended): no search request is rejected by validation —
every search request, an empty query string included, results in exactly
one engine search call carrying the query unchanged. -/
theorem search_no_query_validation (s : SearchRequest) :
    search_memories s
        = HandlerAction.engineCall (EngineCall.search s.query (search_params s)) ∧
      invokesEngine (search_memories s) = true := by
  refine ⟨rfl, rfl⟩

/-- Claim C7: when validation passes, the dispatcher performs exactly one
engine call, and the keyword arguments forwarded are exactly the non-null
optional fields with their values unchanged — null fields are stripped,
never forwarded as explicit nulls (shown for `add_memory` and
`search_memories`, the cited handlers). -/
theorem dispatcher_strips_nulls (m : MemoryCreate) (s : SearchRequest)
    (hm : (pyTruthyStr m.user_id || pyTruthyStr m.agent_id || pyTruthyStr m.run_id)
      = true) :
    add_memory m = HandlerAction.engineCall
        (EngineCall.add (m.messages.map dumpMessage) (add_params m)) ∧
      add_params m = optEntry "user_id" m.user_id ++ optEntry "agent_id" m.agent_id
        ++ optEntry "run_id" m.run_id ++ optDictEntry "metadata" m.metadata ∧
      search_memories s = HandlerAction.engineCall
        (EngineCall.search s.query (search_params s)) ∧
      search_params s = optEntry "user_id" s.user_id ++ optEntry "run_id" s.run_id
        ++ optEntry "agent_id" s.agent_id ++ optDictEntry "filters" s.filters := by
  refine ⟨?_, ?_, rfl, ?_⟩
  · simp [add_memory, hm]
  · obtain ⟨msgs, uid, aid, rid, md⟩ := m
    obtain _ | u := uid <;> obtain _ | a := aid <;> obtain _ | r := rid <;>
      obtain _ | d := md <;>
      simp [add_params, safe_dump_create, optStrVal, optDictVal, optEntry, optDictEntry]
  · obtain ⟨q, uid, rid, aid, fl⟩ := s
    obtain _ | u := uid <;> obtain _ | r := rid <;> obtain _ | a := aid <;>
      obtain _ | f := fl <;>
      simp [search_params, safe_dump_search, optStrVal, optDictVal, optEntry, optDictEntry]

/-- Claim C7 witness: a create body with `user_id` set and `agent_id`,
`run_id`, `metadata` null forwards exactly the `user_id` pair; a search
body with only `filters` set forwards exactly the `filters` pair. -/
theorem dispatcher_strips_nulls_witness :
    (pyTruthyStr (some "u") || pyTruthyStr (none : Option String)
        || pyTruthyStr (none : Option String)) = true ∧
      (add_memory ⟨[⟨"user", "hi"⟩], some "u", none, none, none⟩
          = HandlerAction.engineCall (EngineCall.add [[("role", "user"), ("content", "hi")]]
            [("user_id", PVal.pstr "u")]) ∧
        add_params ⟨[⟨"user", "hi"⟩], some "u", none, none, none⟩
          = [("user_id", PVal.pstr "u")] ∧
        search_memories ⟨"q", none, none, none, some [("k", "v")]⟩
          = HandlerAction.engineCall (EngineCall.search "q"
            [("filters", PVal.pdict [("k", "v")])]) ∧
        search_params ⟨"q", none, none, none, some [("k", "v")]⟩
          = [("filters", PVal.pdict [("k", "v")])]) :=
  ⟨rfl, dispatcher_strips_nulls ⟨[⟨"user", "hi"⟩], some "u", none, none, none⟩
    ⟨"q", none, none, none, some [("k", "v")]⟩ rfl⟩

/-- Claim C8 counterexample: when engine construction raises during
reconfiguration, `set_config` (which has no `try/except`) lets the
exception propagate unhandled — it does not convert it into an
`HTTPException(500, message)` carrying the engine's message. -/
theorem set_config_exception_counterexample :
    (set_config (fun _ : Config => (Except.error "boom" : Except String Unit)) () []).2
        = Outcome.uncaught "boom" ∧
      (set_config (fun _ : Config => (Except.error "boom" : Except String Unit)) () []).2
        ≠ Outcome.httpExc 500 "boom" := by
  refine ⟨rfl, by decide⟩

/-- Claim C8 (amended): for the memory-operation handlers, any engine
exception is converted, without retry, into `HTTPException(500, str(e))`
carrying the engine's message; for reconfiguration, `set_config` has no
handler and the construction exception propagates out unhandled. -/
theorem engine_errors_surface {α : Type} (engine : EngineCall → Except String α)
    (c : EngineCall) (e : String) (he : engine c = Except.error e)
    {E : Type} (fc : Config → Except String E) (st : E) (config : Config)
    (e2 : String) (hf : fc config = Except.error e2) :
    runHandler engine (HandlerAction.engineCall c) = Outcome.httpExc 500 e ∧
      set_config fc st config = (st, Outcome.uncaught e2) := by
  constructor
  · simp [runHandler, he]
  · simp [set_config, hf]

/-- Claim C8 witness: a failing engine call surfaces as a 500 carrying
"boom"; a failing reconfiguration propagates "cfg" unhandled, leaving the
held instance in place. -/
theorem engine_errors_surface_witness :
    (fun _ : EngineCall => (Except.error "boom" : Except String Unit)) (EngineCall.get_all [])
        = Except.error "boom" ∧
      (fun _ : Config => (Except.error "cfg" : Except String Unit)) []
        = Except.error "cfg" ∧
      (runHandler (fun _ : EngineCall => (Except.error "boom" : Except String Unit))
          (HandlerAction.engineCall (EngineCall.get_all []))
          = Outcome.httpExc 500 "boom" ∧
        set_config (fun _ : Config => (Except.error "cfg" : Except String Unit)) () []
          = ((), Outcome.uncaught "cfg")) :=
  ⟨rfl, rfl, engine_errors_surface (fun _ => Except.error "boom") (EngineCall.get_all [])
    "boom" rfl (fun _ => Except.error "cfg") () [] "cfg" rfl⟩

/-- Claim C10: if constructing a new engine from the supplied configuration
raises, `set_config` leaves the `MEMORY_INSTANCE` state unchanged: the
previously active engine remains the held instance. -/
theorem set_config_error_preserves_state {E : Type} (fc : Config → Except String E)
    (st : E) (config : Config) (e : String) (hf : fc config = Except.error e) :
    (set_config fc st config).1 = st := by
  simp [set_config, hf]

/-- Claim C10 witness: a reconfiguration whose construction fails leaves
the previously held instance `"old"` live. -/
theorem set_config_error_preserves_state_witness :
    (fun _ : Config => (Except.error "x" : Except String String)) []
        = Except.error "x" ∧
      (set_config (fun _ : Config => (Except.error "x" : Except String String)) "old" []).1
        = "old" :=
  ⟨rfl, set_config_error_preserves_state (fun _ => Except.error "x") "old" [] "x" rfl⟩

end Mem0Server
